import Mathlib

/-!
Verification of the BirdNET Display location manager
(`location_manager.py`, `utils/config_manager.py`, `utils/geolocation.py`).

The Python code is shallowly embedded: Python floats are modelled as
rationals (every Python float literal is a rational number), the
transcendental haversine computation is modelled over the reals, Python
dicts are modelled as association lists with replace-or-append update
(matching insertion-ordered dict semantics), and the I/O surrounding the
pure decision logic (HTTP calls, the GPS daemon, file system access,
subprocess invocation of `cache_builder.py`) is modelled by passing the
outcome of each effect as an explicit parameter.
-/

set_option maxHeartbeats 1000000

/-- A YAML / JSON scalar value as it appears in the configuration
documents: a number or a string.  (`isinstance(x, (int, float))` in the
Python code distinguishes exactly the numeric case.) -/
inductive YamlVal where
  | num (q : ℚ)
  | str (s : String)
  deriving DecidableEq

/-- A YAML mapping (one section of the configuration document), with
insertion order preserved, as a Python dict. -/
abbrev YSection := List (String × YamlVal)

/-- The whole configuration document: top-level mapping from section
names to sections (the shape of BirdNET-Go's `config.yaml`). -/
abbrev Config := List (String × YSection)

/-- Python `l[k]`-style lookup via `getKey l k` in a dict modelled as an
association list: the value at the first matching key, if any. -/
def getKey {α : Type} (l : List (String × α)) (k : String) : Option α :=
  match l with
  | [] => none
  | (k', v) :: rest => if k' = k then some v else getKey rest k

/-- Python `l.get(k, d)`: lookup with a default. -/
def getKeyD {α : Type} (l : List (String × α)) (k : String) (d : α) : α :=
  (getKey l k).getD d

/-- Python `k in l`. -/
def hasKey {α : Type} (l : List (String × α)) (k : String) : Bool :=
  (getKey l k).isSome

/-- Python `l[k] = v` on a dict: replace the value at an existing key,
otherwise append the new binding at the end (insertion order). -/
def setKey {α : Type} (l : List (String × α)) (k : String) (v : α) :
    List (String × α) :=
  match l with
  | [] => [(k, v)]
  | (k', v') :: rest => if k' = k then (k, v) :: rest else (k', v') :: setKey rest k v

/-- Model of `BirdNETConfigManager.get_location` (config_manager.py lines 85-110).
The argument is `self.config_data` (`none` when not loaded).  Reads
`birdnet.latitude` / `birdnet.longitude`, rejects non-numeric values,
the (0,0) sentinel and out-of-range values. -/
def get_location (cfgOpt : Option Config) : Option (ℚ × ℚ) :=
  match cfgOpt with
  | none => none
  | some cfg =>
    let birdnet_section := getKeyD cfg "birdnet" []
    match getKey birdnet_section "latitude", getKey birdnet_section "longitude" with
    | some (.num lat), some (.num lon) =>
      if (lat = 0 ∧ lon = 0) ∨ ¬(-90 ≤ lat ∧ lat ≤ 90 ∧ -180 ≤ lon ∧ lon ≤ 180) then
        none
      else
        some (lat, lon)
    | _, _ => none

/-- Model of `BirdNETConfigManager.set_location` (config_manager.py lines 112-141).
Returns the Python return value together with the resulting
`self.config_data` (which is returned unchanged when the update is
rejected). -/
def set_location (cfgOpt : Option Config) (latitude longitude : ℚ) :
    Bool × Option Config :=
  match cfgOpt with
  | none => (false, none)
  | some cfg =>
    if ¬(-90 ≤ latitude ∧ latitude ≤ 90 ∧ -180 ≤ longitude ∧ longitude ≤ 180) then
      (false, some cfg)
    else
      let cfg1 := if hasKey cfg "birdnet" then cfg else setKey cfg "birdnet" []
      let sec := getKeyD cfg1 "birdnet" []
      let sec2 := setKey (setKey sec "latitude" (.num latitude)) "longitude" (.num longitude)
      (true, some (setKey cfg1 "birdnet" sec2))

/-- A file-system effect performed by `BirdNETConfigManager.save`. -/
inductive FileOp where
  | copyBackup
  | write (cfg : Config)
  deriving DecidableEq

/-- Model of `BirdNETConfigManager.save` (config_manager.py lines 53-83), on its
non-exceptional path: the Boolean result together with the ordered list
of file-system effects.  `file_exists` is `os.path.exists(self.config_path)`
at the time of the call. -/
def save (cfgOpt : Option Config) (create_backup : Bool) (file_exists : Bool) :
    Bool × List FileOp :=
  match cfgOpt with
  | none => (false, [])
  | some cfg =>
    (true, (if create_backup && file_exists then [FileOp.copyBackup] else [])
             ++ [FileOp.write cfg])

/-- Model of `LocationDetector._validate_coordinates` (geolocation.py lines
233-252): in-range and not the (0,0) null-island sentinel. -/
def validate_coordinates (lat lon : ℚ) : Bool :=
  if ¬(-90 ≤ lat ∧ lat ≤ 90 ∧ -180 ≤ lon ∧ lon ≤ 180) then
    false
  else if lat = 0 ∧ lon = 0 then
    false
  else
    true

/-- Python `math.radians`: degrees to radians. -/
noncomputable def toRad (x : ℝ) : ℝ := x * Real.pi / 180

/-- Python `math.atan2 y x` with the C sign conventions. -/
noncomputable def atan2 (y x : ℝ) : ℝ :=
  if 0 < x then Real.arctan (y / x)
  else if x < 0 then
    (if 0 ≤ y then Real.arctan (y / x) + Real.pi else Real.arctan (y / x) - Real.pi)
  else
    (if 0 < y then Real.pi / 2 else if y < 0 then -(Real.pi / 2) else 0)

/-- The intermediate haversine quantity `a` of
`BirdNETConfigManager.location_changed` (config_manager.py line 170):
`sin(dlat/2)**2 + cos(lat1)*cos(lat2)*sin(dlon/2)**2` with all four
inputs converted from degrees to radians first. -/
noncomputable def havA (lat1 lon1 lat2 lon2 : ℝ) : ℝ :=
  Real.sin ((toRad lat2 - toRad lat1) / 2) ^ 2 +
    Real.cos (toRad lat1) * Real.cos (toRad lat2) *
      Real.sin ((toRad lon2 - toRad lon1) / 2) ^ 2

/-- The haversine great-circle distance of
`BirdNETConfigManager.location_changed` (config_manager.py lines
159-175): `6371 * 2 * atan2(sqrt(a), sqrt(1-a))` kilometres. -/
noncomputable def haversine_km (lat1 lon1 lat2 lon2 : ℝ) : ℝ :=
  6371 * (2 * atan2 (Real.sqrt (havA lat1 lon1 lat2 lon2))
                    (Real.sqrt (1 - havA lat1 lon1 lat2 lon2)))

open Classical in
/-- Model of `BirdNETConfigManager.location_changed` (config_manager.py lines
143-182): `true` when no valid stored coordinate exists, otherwise the
strict comparison `distance > threshold_km`. -/
noncomputable def location_changed (cfgOpt : Option Config)
    (new_latitude new_longitude threshold_km : ℚ) : Bool :=
  match get_location cfgOpt with
  | none => true
  | some cur =>
    if haversine_km (cur.1 : ℝ) (cur.2 : ℝ) (new_latitude : ℝ) (new_longitude : ℝ) >
        (threshold_km : ℝ) then
      true
    else
      false

/-! ## The geolocation detector (`utils/geolocation.py`) -/

/-- The location dict produced by the detector: keys `latitude`,
`longitude`, `method`, `description`, `accuracy` (geolocation.py). -/
structure ResolvedLocation where
  latitude : ℚ
  longitude : ℚ
  method : String
  description : String
  accuracy : String
  deriving DecidableEq

/-- Python exceptions relevant to the provider parsers: `KeyError` from
`data[k]`, `ValueError` from `float(...)` or tuple unpacking, and
`AttributeError` from calling `.split` on a non-string. -/
inductive PyExc where
  | keyError
  | valueError
  | attributeError
  deriving DecidableEq

/-- A parsed JSON document body, as handed to a provider parser. -/
abbrev JObj := List (String × YamlVal)

/-- Digit run to a natural number. -/
def digitsToNat (cs : List Char) : ℕ :=
  cs.foldl (fun a c => a * 10 + (c.toNat - 48)) 0

/-- Every character is a decimal digit. -/
def isDigits (cs : List Char) : Bool := cs.all Char.isDigit

/-- Python `s.split(sep)` for a one-character separator, on character
lists (so `"9.9".split(',') = ["9.9"]` and `"a,b".split(',') = ["a","b"]`). -/
def splitOnChar (c : Char) (cs : List Char) : List (List Char) :=
  match cs with
  | [] => [[]]
  | x :: rest =>
    match splitOnChar c rest with
    | [] => [[x]]
    | h :: t => if x = c then [] :: h :: t else (x :: h) :: t

/-- Unsigned decimal literal `ddd`, `ddd.ddd`, `.ddd` or `ddd.` as
accepted by Python `float`. -/
def parseUnsignedDec (cs : List Char) : Option ℚ :=
  match splitOnChar '.' cs with
  | [ip] =>
    if ip.length > 0 && isDigits ip then
      some (digitsToNat ip : ℚ)
    else none
  | [ip, fp] =>
    if (ip.length > 0 || fp.length > 0) && isDigits ip && isDigits fp then
      some ((digitsToNat ip : ℚ) + (digitsToNat fp : ℚ) / 10 ^ fp.length)
    else none
  | _ => none

/-- Optionally signed decimal literal. -/
def parseSignedDec (cs : List Char) : Option ℚ :=
  match cs with
  | '-' :: rest => (parseUnsignedDec rest).map Neg.neg
  | '+' :: rest => parseUnsignedDec rest
  | _ => parseUnsignedDec cs

/-- Optionally signed integer literal (for an exponent). -/
def parseSignedInt (cs : List Char) : Option ℤ :=
  match cs with
  | '-' :: rest =>
    if rest.length > 0 && isDigits rest then some (-(digitsToNat rest : ℤ)) else none
  | '+' :: rest =>
    if rest.length > 0 && isDigits rest then some (digitsToNat rest : ℤ) else none
  | _ =>
    if cs.length > 0 && isDigits cs then some (digitsToNat cs : ℤ) else none

/-- Python `float(s)` on a string: strip surrounding whitespace, then an
optionally signed decimal with an optional `e`/`E` exponent.  (The
`inf`/`nan` spellings and digit underscores, which no geolocation
provider emits, are out of scope.)  `none` models `ValueError`. -/
def parseFloat (s : String) : Option ℚ :=
  let cs0 := (s.toList.dropWhile Char.isWhitespace).reverse.dropWhile Char.isWhitespace
  let cs := cs0.reverse.map (fun c => if c = 'E' then 'e' else c)
  match splitOnChar 'e' cs with
  | [m] => parseSignedDec m
  | [m, ex] =>
    match parseSignedDec m, parseSignedInt ex with
    | some mv, some ev => some (mv * (10 : ℚ) ^ ev)
    | _, _ => none
  | _ => none

/-- Python `float(v)` on a JSON value: numbers pass through, strings are
parsed (raising `ValueError` on failure). -/
def pyFloat (v : YamlVal) : Except PyExc ℚ :=
  match v with
  | .num q => .ok q
  | .str s =>
    match parseFloat s with
    | some q => .ok q
    | none => .error .valueError

/-- Python `data[k]`: `KeyError` when absent. -/
def getItem (data : JObj) (k : String) : Except PyExc YamlVal :=
  match getKey data k with
  | some v => .ok v
  | none => .error .keyError

/-- The string Python interpolates for a JSON value in an f-string. -/
def jvalStr (v : YamlVal) : String :=
  match v with
  | .num q => toString q
  | .str s => s

/-- Python `s.strip(chars)`: remove leading and trailing characters
drawn from `chars`. -/
def stripChars (s : String) (chars : List Char) : String :=
  (((s.toList.dropWhile (· ∈ chars)).reverse.dropWhile (· ∈ chars)).reverse).asString

/-- Model of `LocationDetector._parse_ipapi_co` (geolocation.py lines 103-114),
with the Python exceptions it can raise made explicit. -/
def parse_ipapi_co (data : JObj) : Except PyExc (Option ResolvedLocation) :=
  if hasKey data "error" then
    .ok none
  else do
    let lat ← pyFloat (← getItem data "latitude")
    let lon ← pyFloat (← getItem data "longitude")
    let desc := stripChars
      (jvalStr (getKeyD data "city" (.str "Unknown")) ++ ", " ++
       jvalStr (getKeyD data "region" (.str "")) ++ ", " ++
       jvalStr (getKeyD data "country_name" (.str "Unknown"))) [',', ' ']
    .ok (some ⟨lat, lon, "ipapi.co", desc, "city-level (~10-50km)"⟩)

/-- Model of `LocationDetector._parse_ip_api_com` (geolocation.py lines 116-127). -/
def parse_ip_api_com (data : JObj) : Except PyExc (Option ResolvedLocation) :=
  if getKey data "status" ≠ some (.str "success") then
    .ok none
  else do
    let lat ← pyFloat (← getItem data "lat")
    let lon ← pyFloat (← getItem data "lon")
    let desc := stripChars
      (jvalStr (getKeyD data "city" (.str "Unknown")) ++ ", " ++
       jvalStr (getKeyD data "regionName" (.str "")) ++ ", " ++
       jvalStr (getKeyD data "country" (.str "Unknown"))) [',', ' ']
    .ok (some ⟨lat, lon, "ip-api.com", desc, "city-level (~10-50km)"⟩)

/-- Model of `LocationDetector._parse_ipinfo_io` (geolocation.py lines 129-141):
`lat, lon = data['loc'].split(',')` raises `ValueError` when the split
does not yield exactly two parts, and `AttributeError` when `loc` is
not a string. -/
def parse_ipinfo_io (data : JObj) : Except PyExc (Option ResolvedLocation) :=
  match getKey data "loc" with
  | none => .ok none
  | some (.num _) => .error .attributeError
  | some (.str s) =>
    match splitOnChar ',' s.toList with
    | [a, b] => do
      let lat ← pyFloat (.str a.asString)
      let lon ← pyFloat (.str b.asString)
      let desc := stripChars
        (jvalStr (getKeyD data "city" (.str "Unknown")) ++ ", " ++
         jvalStr (getKeyD data "region" (.str "")) ++ ", " ++
         jvalStr (getKeyD data "country" (.str "Unknown"))) [',', ' ']
      .ok (some ⟨lat, lon, "ipinfo.io", desc, "city-level (~10-50km)"⟩)
    | _ => .error .valueError

/-- What one IP-geolocation provider attempt yields before parsing:
a transport failure (`requests.exceptions.RequestException`), an
unparseable body (`json.JSONDecodeError`), or a JSON document. -/
inductive ApiResponse where
  | transportError
  | badJson
  | ok (data : JObj)

/-- One iteration of the provider loop of
`LocationDetector._try_ip_geolocation` (geolocation.py lines 87-99):
the `except` clause catches `RequestException`, `JSONDecodeError` and
`KeyError` (continuing with the next provider) but nothing else, so
`ValueError`/`AttributeError` from a parser escape. -/
def attemptApi (parse : JObj → Except PyExc (Option ResolvedLocation))
    (resp : ApiResponse) : Except PyExc (Option ResolvedLocation) :=
  match resp with
  | .transportError => .ok none
  | .badJson => .ok none
  | .ok data =>
    match parse data with
    | .error .keyError => .ok none
    | .error e => .error e
    | .ok none => .ok none
    | .ok (some loc) =>
      if validate_coordinates loc.latitude loc.longitude then .ok (some loc)
      else .ok none

/-- Model of `LocationDetector._try_ip_geolocation` (geolocation.py lines 64-101):
the three providers tried strictly in order, first validated result
wins; an uncaught parser exception propagates. -/
def try_ip_geolocation (r1 r2 r3 : ApiResponse) :
    Except PyExc (Option ResolvedLocation) :=
  match attemptApi parse_ipapi_co r1 with
  | .error e => .error e
  | .ok (some l) => .ok (some l)
  | .ok none =>
    match attemptApi parse_ip_api_com r2 with
    | .error e => .error e
    | .ok (some l) => .ok (some l)
    | .ok none => attemptApi parse_ipinfo_io r3

/-- Model of `LocationDetector.detect_location` (geolocation.py lines 35-62): the
three sources tried in order IP geolocation, GPS hardware, manual
config, short-circuiting on the first non-`None` result.  Each argument
is the value the corresponding `_try_*` call returns. -/
def detect_location (ip gps manual : Option ResolvedLocation) :
    Option ResolvedLocation :=
  match ip with
  | some l => some l
  | none =>
    match gps with
    | some l => some l
    | none =>
      match manual with
      | some l => some l
      | none => none

/-! ## The orchestrator (`location_manager.py`) -/

/-- The cache-builder flags of `location_manager.py` line 216. -/
def fullFlags : List String := ["--update-species", "--incremental", "--yes"]

/-- The cache-builder flags of `location_manager.py` line 232. -/
def checkFlags : List String := ["--check-only"]

/-- The cache-builder flags of `location_manager.py` line 236. -/
def incrFlags : List String := ["--incremental"]

/-- The outcomes of the effects `main` performs, supplied as explicit
inputs to the pure model of a run: whether BirdNET-Go became reachable,
whether the configuration loaded (and its contents), what the location
detector returned (coordinates only), whether `save` succeeded, and the
exit code `run_cache_builder` reports for each flag set. -/
structure Env where
  birdnet_ok : Bool
  load_ok : Bool
  config : Config
  detected : Option (ℚ × ℚ)
  save_ok : Bool
  cache_full : Nat
  cache_check : Nat
  cache_incr : Nat

/-- The observable outcome of one run of `main`: the process exit code,
the configuration written by `save` (if any), whether a backup was
created before writing, and the ordered list of `run_cache_builder`
invocations (each one its flag list). -/
structure RunResult where
  exitCode : Nat
  saved : Option Config
  backup : Bool
  calls : List (List String)
  deriving DecidableEq

/-- Step 8 of `main` (location_manager.py lines 229-254): the
location-unchanged branch.  `--check-only` first; on exit code 1 one
retry with `--incremental`; exit-code mapping as in the source. -/
def unchanged_branch (env : Env) : RunResult :=
  if env.cache_check = 1 then
    if env.cache_incr = 0 then ⟨0, none, false, [checkFlags, incrFlags]⟩
    else if env.cache_incr = 2 then ⟨2, none, false, [checkFlags, incrFlags]⟩
    else ⟨1, none, false, [checkFlags, incrFlags]⟩
  else if env.cache_check = 2 then ⟨2, none, false, [checkFlags]⟩
  else ⟨0, none, false, [checkFlags]⟩

/-- Steps 5-7 of `main` (location_manager.py lines 173-227), after a
detected (or carried-over) coordinate `d` is fixed.  `current` is the
`current_location` of step 3.  On the changed path: `set_location`,
then `save(create_backup=True)` (the config file exists, having been
loaded, so a backup is made), then the full cache-builder run whose
exit code 1 fails the run and whose other exit codes end it with 0. -/
noncomputable def afterDetect (env : Env) (d : ℚ × ℚ)
    (current : Option (ℚ × ℚ)) : RunResult :=
  let changed :=
    match current with
    | some _ => location_changed (some env.config) d.1 d.2 100
    | none => true
  if changed then
    match set_location (some env.config) d.1 d.2 with
    | (true, some cfg2) =>
      if env.save_ok then
        if env.cache_full = 1 then ⟨1, some cfg2, true, [fullFlags]⟩
        else ⟨0, some cfg2, true, [fullFlags]⟩
      else ⟨1, none, false, []⟩
    | _ => ⟨1, none, false, []⟩
  else
    unchanged_branch env

/-- Model of `main` (location_manager.py lines 119-263) as a pure function of
the effect outcomes: dependency wait, config load, location detection
with the keep-existing fallback of lines 154-166, then `afterDetect`. -/
noncomputable def main_run (env : Env) : RunResult :=
  if env.birdnet_ok then
    if env.load_ok then
      match env.detected, get_location (some env.config) with
      | none, none => ⟨1, none, false, []⟩
      | none, some cur => afterDetect env cur (some cur)
      | some d, curOpt => afterDetect env d curOpt
    else ⟨1, none, false, []⟩
  else ⟨1, none, false, []⟩

/-! ## Association-list lemmas -/

theorem getKey_setKey_self {α : Type} (l : List (String × α)) (k : String) (v : α) :
    getKey (setKey l k v) k = some v := by
  induction l with
  | nil => simp [setKey, getKey]
  | cons hd tl ih =>
    obtain ⟨k', v'⟩ := hd
    by_cases h : k' = k
    · simp [setKey, getKey, h]
    · simp [setKey, getKey, h, ih]

theorem getKey_setKey_ne {α : Type} (l : List (String × α)) (k k' : String) (v : α)
    (h : k' ≠ k) : getKey (setKey l k v) k' = getKey l k' := by
  have hks : ¬k = k' := fun hh => h hh.symm
  induction l with
  | nil => simp [setKey, getKey, hks]
  | cons hd tl ih =>
    obtain ⟨k0, v0⟩ := hd
    by_cases h0 : k0 = k
    · subst h0
      simp [setKey, getKey, hks]
    · simp [setKey, getKey, h0, ih]

/-! ## Haversine lemmas -/

theorem havA_self (lat lon : ℝ) : havA lat lon lat lon = 0 := by
  simp [havA]

theorem haversine_self (lat lon : ℝ) : haversine_km lat lon lat lon = 0 := by
  have h0 : Real.sqrt (0 : ℝ) = 0 := Real.sqrt_zero
  simp [haversine_km, havA_self, atan2, Real.sqrt_zero, Real.arctan_zero]

theorem havA_symm (lat1 lon1 lat2 lon2 : ℝ) :
    havA lat1 lon1 lat2 lon2 = havA lat2 lon2 lat1 lon1 := by
  have h : ∀ x y : ℝ, Real.sin ((x - y) / 2) ^ 2 = Real.sin ((y - x) / 2) ^ 2 := by
    intro x y
    rw [show (x - y) / 2 = -((y - x) / 2) by ring, Real.sin_neg, neg_sq]
  unfold havA
  rw [h (toRad lat2) (toRad lat1), h (toRad lon2) (toRad lon1),
    mul_comm (Real.cos (toRad lat1)) (Real.cos (toRad lat2))]

theorem haversine_symm (lat1 lon1 lat2 lon2 : ℝ) :
    haversine_km lat1 lon1 lat2 lon2 = haversine_km lat2 lon2 lat1 lon1 := by
  unfold haversine_km
  rw [havA_symm]

theorem atan2_nonneg (y x : ℝ) (hy : 0 ≤ y) : 0 ≤ atan2 y x := by
  have hpi := Real.pi_pos
  have harct := Real.neg_pi_div_two_lt_arctan (y / x)
  unfold atan2
  split_ifs with h1 h2 h3 h4
  · have h := Real.arctan_strictMono.monotone (div_nonneg hy h1.le)
    rwa [Real.arctan_zero] at h
  all_goals linarith

theorem haversine_nonneg (lat1 lon1 lat2 lon2 : ℝ) :
    0 ≤ haversine_km lat1 lon1 lat2 lon2 := by
  unfold haversine_km
  have h := atan2_nonneg (Real.sqrt (havA lat1 lon1 lat2 lon2))
    (Real.sqrt (1 - havA lat1 lon1 lat2 lon2)) (Real.sqrt_nonneg _)
  positivity

theorem location_changed_of_none {cfgOpt : Option Config} (nl no thr : ℚ)
    (h : get_location cfgOpt = none) : location_changed cfgOpt nl no thr = true := by
  simp [location_changed, h]

theorem location_changed_iff_of_some {cfgOpt : Option Config} {cur : ℚ × ℚ}
    (nl no thr : ℚ) (h : get_location cfgOpt = some cur) :
    location_changed cfgOpt nl no thr = true ↔
      haversine_km (cur.1 : ℝ) (cur.2 : ℝ) (nl : ℝ) (no : ℝ) > (thr : ℝ) := by
  simp only [location_changed, h]
  split_ifs with hgt
  · simp [hgt]
  · simp [hgt]

theorem location_changed_self {cfg : Config} {cur : ℚ × ℚ}
    (h : get_location (some cfg) = some cur) :
    location_changed (some cfg) cur.1 cur.2 100 = false := by
  have hiff := location_changed_iff_of_some cur.1 cur.2 100 h
  have h0 : haversine_km (cur.1 : ℝ) (cur.2 : ℝ) (cur.1 : ℝ) (cur.2 : ℝ) = 0 :=
    haversine_self _ _
  rcases Bool.eq_false_or_eq_true (location_changed (some cfg) cur.1 cur.2 100) with hb | hb
  · exfalso
    have := hiff.mp hb
    rw [h0] at this
    norm_num at this
  · exact hb

/-- Claim C5: the coordinate validator returns false exactly when a
coordinate is out of range or is the (0,0) sentinel, and in particular
rejects (0,0), (91,0) and (0,181) while accepting (45,-80). -/
theorem claim_C5 :
    (∀ lat lon : ℚ, validate_coordinates lat lon = true ↔
      ((-90 ≤ lat ∧ lat ≤ 90 ∧ -180 ≤ lon ∧ lon ≤ 180) ∧ ¬(lat = 0 ∧ lon = 0))) ∧
    validate_coordinates 0 0 = false ∧
    validate_coordinates 91 0 = false ∧
    validate_coordinates 0 181 = false ∧
    validate_coordinates 45 (-80) = true := by
  refine ⟨?_, by decide, by decide, by decide, by decide⟩
  intro lat lon
  unfold validate_coordinates
  by_cases hr : -90 ≤ lat ∧ lat ≤ 90 ∧ -180 ≤ lon ∧ lon ≤ 180
  · by_cases hs : lat = 0 ∧ lon = 0
    · rw [if_neg (not_not_intro hr), if_pos hs]
      simp only [Bool.false_eq_true, false_iff]
      tauto
    · rw [if_neg (not_not_intro hr), if_neg hs]
      constructor
      · intro _
        exact ⟨hr, hs⟩
      · intro _
        rfl
  · rw [if_pos hr]
    simp only [Bool.false_eq_true, false_iff]
    tauto

/-- Claim C3: `detect_location` tries the sources in the strict order
IP geolocation, GPS hardware, manual configuration, short-circuiting on
the first non-`None` result: a non-`None` IP result always wins (even
when GPS or manual config would also succeed), with IP `None` a
non-`None` GPS result wins (even when manual config would also
succeed), with IP and GPS both `None` the manual result is returned,
and the whole chain returns `None` exactly when all three sources do. -/
theorem claim_C3 : ∀ ip gps manual : Option ResolvedLocation,
    (∀ l, ip = some l → detect_location ip gps manual = some l) ∧
    (∀ l, ip = none → gps = some l → detect_location ip gps manual = some l) ∧
    (ip = none → gps = none → detect_location ip gps manual = manual) ∧
    (detect_location ip gps manual = none ↔
      ip = none ∧ gps = none ∧ manual = none) := by
  intro ip gps manual
  refine ⟨?_, ?_, ?_, ?_⟩
  · intro l hl
    rw [hl]
    rfl
  · intro l hip hl
    rw [hip, hl]
    rfl
  · intro hip hgps
    rw [hip, hgps]
    cases manual <;> rfl
  · cases ip <;> cases gps <;> cases manual <;> simp [detect_location]

/-- Claim C3 witness: with both the IP source and the GPS source
yielding a location, the IP result wins; with the IP source failing,
the GPS result wins over an available manual configuration; with IP
and GPS both failing, the manual result is returned. -/
theorem claim_C3_witness :
    detect_location
      (some ⟨33, -84, "ipapi.co", "Atlanta, GA, United States", "city-level (~10-50km)"⟩)
      (some ⟨35, -80, "GPS hardware", "GPS Fix", "high-precision (~5-10m)"⟩)
      none =
      some ⟨33, -84, "ipapi.co", "Atlanta, GA, United States", "city-level (~10-50km)"⟩ ∧
    detect_location none
      (some ⟨35, -80, "GPS hardware", "GPS Fix", "high-precision (~5-10m)"⟩)
      (some ⟨40, -74, "manual configuration", "Manual", "user-specified"⟩) =
      some ⟨35, -80, "GPS hardware", "GPS Fix", "high-precision (~5-10m)"⟩ ∧
    detect_location none none
      (some ⟨40, -74, "manual configuration", "Manual", "user-specified"⟩) =
      some ⟨40, -74, "manual configuration", "Manual", "user-specified"⟩ :=
  ⟨(claim_C3 _ _ _).1 _ rfl, (claim_C3 _ _ _).2.1 _ rfl rfl,
    (claim_C3 _ _ _).2.2.1 rfl rfl⟩

/-- Claim C8: the distance used by `location_changed` is the haversine
formula on a sphere of radius 6371 km; it is non-negative, symmetric,
and zero between equal coordinates. -/
theorem claim_C8 : ∀ lat1 lon1 lat2 lon2 : ℝ,
    0 ≤ haversine_km lat1 lon1 lat2 lon2 ∧
    haversine_km lat1 lon1 lat2 lon2 = haversine_km lat2 lon2 lat1 lon1 ∧
    haversine_km lat1 lon1 lat1 lon1 = 0 :=
  fun lat1 lon1 lat2 lon2 =>
    ⟨haversine_nonneg lat1 lon1 lat2 lon2, haversine_symm lat1 lon1 lat2 lon2,
      haversine_self lat1 lon1⟩

/-- Claim C4 (code bug): the IP-geolocation source CAN raise.  With the
first two providers unreachable and `ipinfo.io` returning the malformed
body `{"loc": "9.9"}` (no comma), the tuple unpacking in
`_parse_ipinfo_io` raises `ValueError`, which the provider loop's
`except` clause (geolocation.py line 97) does not catch, so it
propagates out of `_try_ip_geolocation`. -/
theorem claim_C4 :
    try_ip_geolocation .transportError .transportError
      (.ok [("loc", .str "9.9")]) = .error .valueError := by
  rfl

/-- Claim C2: the change decision is a strict greater-than comparison
against the threshold (equality classifies as unchanged), and a missing
or invalid stored coordinate always classifies as changed. -/
theorem claim_C2 : ∀ (cfg : Config) (cur : ℚ × ℚ) (nl no thr : ℚ),
    (get_location (some cfg) = some cur →
      ((haversine_km (cur.1 : ℝ) (cur.2 : ℝ) (nl : ℝ) (no : ℝ) = (thr : ℝ) →
        location_changed (some cfg) nl no thr = false) ∧
       (haversine_km (cur.1 : ℝ) (cur.2 : ℝ) (nl : ℝ) (no : ℝ) > (thr : ℝ) →
        location_changed (some cfg) nl no thr = true))) ∧
    (get_location (some cfg) = none →
      location_changed (some cfg) nl no thr = true) := by
  intro cfg cur nl no thr
  constructor
  · intro h
    have hiff := location_changed_iff_of_some nl no thr h
    constructor
    · intro heq
      cases hb : location_changed (some cfg) nl no thr
      · rfl
      · exfalso
        have hgt := hiff.mp hb
        rw [heq] at hgt
        exact lt_irrefl _ hgt
    · intro hgt
      exact hiff.mpr hgt
  · intro h
    exact location_changed_of_none nl no thr h

/-- Claim C2 witness: at a stored coordinate (0,90) with the new
coordinate equal to it and threshold 0, the distance equals the
threshold and the decision is "unchanged"; with no stored coordinate
the decision is always "changed". -/
theorem claim_C2_witness :
    location_changed
      (some [("birdnet", [("latitude", YamlVal.num 0), ("longitude", YamlVal.num 90)])])
      0 90 0 = false ∧
    location_changed (some ([] : Config)) 0 90 100 = true := by
  constructor
  · have hget : get_location
        (some [("birdnet", [("latitude", YamlVal.num 0), ("longitude", YamlVal.num 90)])]) =
        some (0, 90) := by decide
    have heq : haversine_km (((0, 90) : ℚ × ℚ).1 : ℝ) (((0, 90) : ℚ × ℚ).2 : ℝ)
        ((0 : ℚ) : ℝ) ((90 : ℚ) : ℝ) = ((0 : ℚ) : ℝ) := by
      push_cast
      exact haversine_self 0 90
    exact ((claim_C2 _ (0, 90) 0 90 0).1 hget).1 heq
  · exact (claim_C2 [] (0, 0) 0 90 100).2 rfl

theorem set_location_eq_of_range (cfg : Config) {lat lon : ℚ}
    (h : -90 ≤ lat ∧ lat ≤ 90 ∧ -180 ≤ lon ∧ lon ≤ 180) :
    set_location (some cfg) lat lon =
      (true, some (setKey (if hasKey cfg "birdnet" then cfg else setKey cfg "birdnet" [])
        "birdnet"
        (setKey (setKey (getKeyD (if hasKey cfg "birdnet" then cfg
            else setKey cfg "birdnet" []) "birdnet" []) "latitude" (.num lat))
          "longitude" (.num lon)))) := by
  simp only [set_location, if_neg (not_not_intro h)]

theorem get_location_of_setKey (cfg1 : Config) (sec : YSection) (lat lon : ℚ) :
    get_location (some (setKey cfg1 "birdnet"
        (setKey (setKey sec "latitude" (.num lat)) "longitude" (.num lon)))) =
      if (lat = 0 ∧ lon = 0) ∨ ¬(-90 ≤ lat ∧ lat ≤ 90 ∧ -180 ≤ lon ∧ lon ≤ 180) then
        none
      else
        some (lat, lon) := by
  have hlatne : ("latitude" : String) ≠ "longitude" := by decide
  have hb := getKey_setKey_self cfg1 "birdnet"
    (setKey (setKey sec "latitude" (YamlVal.num lat)) "longitude" (YamlVal.num lon))
  have hlon := getKey_setKey_self (setKey sec "latitude" (YamlVal.num lat))
    "longitude" (YamlVal.num lon)
  have hlat : getKey (setKey (setKey sec "latitude" (YamlVal.num lat))
      "longitude" (YamlVal.num lon)) "latitude" = some (YamlVal.num lat) := by
    rw [getKey_setKey_ne _ _ _ _ hlatne]
    exact getKey_setKey_self sec "latitude" (YamlVal.num lat)
  simp only [get_location, getKeyD, hb, Option.getD_some, hlat, hlon]

/-- Claim C10: for in-range coordinates, `set_location` succeeds and
`get_location` reads back exactly the pair just stored — except at the
(0,0) sentinel, which `set_location` happily stores (it performs no
sentinel check) and `get_location` then refuses to return. -/
theorem claim_C10 : ∀ (cfg : Config) (lat lon : ℚ),
    -90 ≤ lat → lat ≤ 90 → -180 ≤ lon → lon ≤ 180 →
    (set_location (some cfg) lat lon).1 = true ∧
    ∀ cfg', (set_location (some cfg) lat lon).2 = some cfg' →
      (¬(lat = 0 ∧ lon = 0) → get_location (some cfg') = some (lat, lon)) ∧
      (lat = 0 ∧ lon = 0 →
        get_location (some cfg') = none ∧
        getKey (getKeyD cfg' "birdnet" []) "latitude" = some (.num 0) ∧
        getKey (getKeyD cfg' "birdnet" []) "longitude" = some (.num 0)) := by
  intro cfg lat lon h1 h2 h3 h4
  have hr : -90 ≤ lat ∧ lat ≤ 90 ∧ -180 ≤ lon ∧ lon ≤ 180 := ⟨h1, h2, h3, h4⟩
  have hset := set_location_eq_of_range cfg hr
  constructor
  · rw [hset]
  · intro cfg' hcfg'
    rw [hset] at hcfg'
    simp only [Option.some.injEq] at hcfg'
    subst hcfg'
    constructor
    · intro hns
      have hcond : ¬((lat = 0 ∧ lon = 0) ∨
          ¬(-90 ≤ lat ∧ lat ≤ 90 ∧ -180 ≤ lon ∧ lon ≤ 180)) :=
        fun hcon => hcon.elim hns fun hnr => hnr hr
      rw [get_location_of_setKey, if_neg hcond]
    · intro hs
      obtain ⟨hl0, hn0⟩ := hs
      subst hl0
      subst hn0
      refine ⟨?_, ?_, ?_⟩
      · rw [get_location_of_setKey]
        simp
      · simp only [getKeyD, getKey_setKey_self, Option.getD_some]
        rw [getKey_setKey_ne _ _ _ _ (by decide : ("latitude" : String) ≠ "longitude")]
        exact getKey_setKey_self _ _ _
      · simp only [getKeyD, getKey_setKey_self, Option.getD_some]

/-- Claim C10 witness: storing (0,0) into an empty document succeeds,
and the stored document then yields no location. -/
theorem claim_C10_witness :
    (set_location (some ([] : Config)) 0 0).1 = true ∧
    get_location (some [("birdnet",
      [("latitude", YamlVal.num 0), ("longitude", YamlVal.num 0)])]) = none := by
  have h := claim_C10 [] 0 0 (by norm_num) (by norm_num) (by norm_num) (by norm_num)
  refine ⟨h.1, ?_⟩
  have hcfg : (set_location (some ([] : Config)) 0 0).2 =
      some [("birdnet", [("latitude", YamlVal.num 0), ("longitude", YamlVal.num 0)])] := by
    decide
  exact ((h.2 _ hcfg).2 ⟨rfl, rfl⟩).1

/-- Claim C9: `set_location` touches only the `latitude` and
`longitude` keys of the `birdnet` section (creating that section when
absent) and leaves every other top-level section and every other
`birdnet` key untouched; and `save` with backup enabled on an existing
file copies the file to a backup before writing the document. -/
theorem claim_C9 :
    (∀ (cfg : Config) (lat lon : ℚ) (b : Bool) (cfg' : Config),
      set_location (some cfg) lat lon = (b, some cfg') →
      (∀ name, name ≠ "birdnet" → getKey cfg' name = getKey cfg name) ∧
      (∀ key, key ≠ "latitude" → key ≠ "longitude" →
        getKey (getKeyD cfg' "birdnet" []) key =
          getKey (getKeyD cfg "birdnet" []) key)) ∧
    (∀ cfg : Config,
      save (some cfg) true true = (true, [FileOp.copyBackup, FileOp.write cfg])) := by
  constructor
  · intro cfg lat lon b cfg' hset
    by_cases hr : -90 ≤ lat ∧ lat ≤ 90 ∧ -180 ≤ lon ∧ lon ≤ 180
    · rw [set_location_eq_of_range cfg hr] at hset
      simp only [Prod.mk.injEq, Option.some.injEq] at hset
      obtain ⟨hb, hX⟩ := hset
      subst hX
      constructor
      · intro name hn
        rw [getKey_setKey_ne _ _ _ _ hn]
        by_cases hbk : hasKey cfg "birdnet" = true
        · rw [if_pos hbk]
        · rw [if_neg hbk, getKey_setKey_ne _ _ _ _ hn]
      · intro key hk1 hk2
        simp only [getKeyD, getKey_setKey_self, Option.getD_some]
        rw [getKey_setKey_ne _ _ _ _ hk2, getKey_setKey_ne _ _ _ _ hk1]
        by_cases hbk : hasKey cfg "birdnet" = true
        · rw [if_pos hbk]
        · rw [if_neg hbk]
          have hnone : getKey cfg "birdnet" = none := by
            unfold hasKey at hbk
            cases h : getKey cfg "birdnet" with
            | none => rfl
            | some v =>
              rw [h] at hbk
              simp at hbk
          simp only [getKeyD, getKey_setKey_self, Option.getD_some, hnone,
            Option.getD_none]
    · simp only [set_location, if_pos hr, Prod.mk.injEq, Option.some.injEq] at hset
      obtain ⟨hb, hX⟩ := hset
      subst hX
      exact ⟨fun name _ => rfl, fun key _ _ => rfl⟩
  · intro cfg
    rfl

/-- Claim C9 witness: updating the location of a document with an
unrelated `other` section leaves that section's entry unchanged, and a
concrete backed-up save performs the backup copy before the write. -/
theorem claim_C9_witness :
    getKey [("other", [("k", YamlVal.num 5)]),
        ("birdnet", [("latitude", YamlVal.num 10), ("longitude", YamlVal.num 20)])]
        "other" =
      getKey [("other", [("k", YamlVal.num 5)])] "other" ∧
    save (some ([] : Config)) true true = (true, [FileOp.copyBackup, FileOp.write []]) := by
  have hset : set_location (some [("other", [("k", YamlVal.num 5)])]) 10 20 =
      (true, some [("other", [("k", YamlVal.num 5)]),
        ("birdnet", [("latitude", YamlVal.num 10), ("longitude", YamlVal.num 20)])]) := by
    decide
  exact ⟨(claim_C9.1 _ 10 20 true _ hset).1 "other" (by decide), claim_C9.2 []⟩

theorem unchanged_branch_saved (env : Env) : (unchanged_branch env).saved = none := by
  unfold unchanged_branch
  split_ifs <;> rfl

/-- Claim C6: when detection yields nothing, the run fails with exit
code 1 if no valid persisted coordinate exists, and otherwise proceeds
with the persisted coordinate as the resolved one (landing in the
unchanged branch, persisting nothing). -/
theorem claim_C6 : ∀ (env : Env) (cur : ℚ × ℚ),
    env.birdnet_ok = true → env.load_ok = true → env.detected = none →
    (get_location (some env.config) = none →
      main_run env = ⟨1, none, false, []⟩) ∧
    (get_location (some env.config) = some cur →
      main_run env = unchanged_branch env ∧ (main_run env).saved = none) := by
  intro env cur h1 h2 h3
  constructor
  · intro hc
    simp [main_run, h1, h2, h3, hc]
  · intro hc
    have hmain : main_run env = afterDetect env cur (some cur) := by
      simp [main_run, h1, h2, h3, hc]
    have hlc := location_changed_self hc
    have hbranch : afterDetect env cur (some cur) = unchanged_branch env := by
      simp [afterDetect, hlc]
    rw [hmain, hbranch]
    exact ⟨rfl, unchanged_branch_saved env⟩

/-- Claim C6 witness: a run with failed detection and an empty
configuration exits with code 1, while a run with failed detection and
a persisted coordinate proceeds to the unchanged branch. -/
theorem claim_C6_witness :
    main_run ⟨true, true, [], none, true, 0, 0, 0⟩ = ⟨1, none, false, []⟩ ∧
    main_run ⟨true, true,
        [("birdnet", [("latitude", YamlVal.num 0), ("longitude", YamlVal.num 90)])],
        none, true, 0, 2, 0⟩ =
      unchanged_branch ⟨true, true,
        [("birdnet", [("latitude", YamlVal.num 0), ("longitude", YamlVal.num 90)])],
        none, true, 0, 2, 0⟩ := by
  constructor
  · exact (claim_C6 ⟨true, true, [], none, true, 0, 0, 0⟩ (0, 0) rfl rfl rfl).1 rfl
  · exact ((claim_C6 _ (0, 90) rfl rfl rfl).2 (by decide)).1

/-- Claim C7: on the unchanged branch the run invokes the cache builder
in check-only mode first, retries exactly once in incremental mode if
and only if the check reports hard failure (exit code 1), and maps the
outcomes to the process exit code: hard failure after the retry gives
1, no-op/up-to-date gives 2, work performed gives 0. -/
theorem claim_C7 : ∀ (env : Env) (d cur : ℚ × ℚ),
    env.birdnet_ok = true → env.load_ok = true → env.detected = some d →
    get_location (some env.config) = some cur →
    location_changed (some env.config) d.1 d.2 100 = false →
    main_run env = unchanged_branch env ∧
    ((unchanged_branch env).calls = [checkFlags, incrFlags] ↔ env.cache_check = 1) ∧
    (env.cache_check = 1 →
      (unchanged_branch env).exitCode =
        (if env.cache_incr = 0 then 0 else if env.cache_incr = 2 then 2 else 1)) ∧
    (env.cache_check ≠ 1 →
      (unchanged_branch env).calls = [checkFlags] ∧
      (unchanged_branch env).exitCode = (if env.cache_check = 2 then 2 else 0)) := by
  intro env d cur h1 h2 h3 h4 h5
  refine ⟨?_, ?_, ?_, ?_⟩
  · have hmain : main_run env = afterDetect env d (some cur) := by
      simp [main_run, h1, h2, h3, h4]
    rw [hmain]
    simp [afterDetect, h5]
  · by_cases hck : env.cache_check = 1
    · simp only [unchanged_branch, hck, if_pos]
      constructor
      · intro _
        trivial
      · intro _
        split_ifs <;> rfl
    · constructor
      · intro hcalls
        exfalso
        unfold unchanged_branch at hcalls
        rw [if_neg hck] at hcalls
        split_ifs at hcalls <;> simp [checkFlags, incrFlags] at hcalls
      · intro hck1
        exact absurd hck1 hck
  · intro hck
    unfold unchanged_branch
    rw [if_pos hck]
    split_ifs <;> rfl
  · intro hck
    unfold unchanged_branch
    rw [if_neg hck]
    split_ifs <;> exact ⟨rfl, rfl⟩

/-- Claim C7 witness: with an unchanged location, a failing check-only
run (exit 1) and an up-to-date incremental retry (exit 2), the run
performs exactly the two collaborator invocations and exits with 2. -/
theorem claim_C7_witness :
    main_run ⟨true, true,
        [("birdnet", [("latitude", YamlVal.num 0), ("longitude", YamlVal.num 90)])],
        some (0, 90), true, 0, 1, 2⟩ =
      unchanged_branch ⟨true, true,
        [("birdnet", [("latitude", YamlVal.num 0), ("longitude", YamlVal.num 90)])],
        some (0, 90), true, 0, 1, 2⟩ ∧
    (unchanged_branch ⟨true, true,
        [("birdnet", [("latitude", YamlVal.num 0), ("longitude", YamlVal.num 90)])],
        some (0, 90), true, 0, 1, 2⟩).calls = [checkFlags, incrFlags] ∧
    (unchanged_branch ⟨true, true,
        [("birdnet", [("latitude", YamlVal.num 0), ("longitude", YamlVal.num 90)])],
        some (0, 90), true, 0, 1, 2⟩).exitCode = 2 := by
  have hget : get_location
      (some [("birdnet", [("latitude", YamlVal.num 0), ("longitude", YamlVal.num 90)])]) =
      some (0, 90) := by decide
  have hlc : location_changed
      (some [("birdnet", [("latitude", YamlVal.num 0), ("longitude", YamlVal.num 90)])])
      0 90 100 = false := location_changed_self hget
  have h := claim_C7 ⟨true, true,
      [("birdnet", [("latitude", YamlVal.num 0), ("longitude", YamlVal.num 90)])],
      some (0, 90), true, 0, 1, 2⟩ (0, 90) (0, 90) rfl rfl rfl hget hlc
  refine ⟨h.1, h.2.1.mpr rfl, ?_⟩
  have he := h.2.2.1 rfl
  simpa using he

